import Mathlib

/-!
Verification of the Pinterest-style waterfall (masonry) layout engine of
`static/script.js` (AlbumBrowserV2).

The engine lives in the functions `initWaterfallLayout`, `layoutWaterfallItem`,
`positionItem` and `layoutWaterfall` (lines 594-740 of `script.js`), together
with the mutable globals declared at lines 20-23:

    let columnHeights = [];
    let columnCount = 0;
    let itemWidth = 236;
    let itemGap = 16;

The file contains a second, near-duplicate revision of the same engine
(lines 2156-2296); the only behavioural difference sits in the caption-height
computation of `positionItem` (line 2266 versus lines 706-710), which is
embedded separately below as `positionItemHeight2` / `positionItem2`.

Modelling conventions:
* pixel widths coming from `window.innerWidth` and the breakpoint arithmetic
  are integers, embedded as `Int`; `Math.floor` of a float quotient of
  integers is `Int.fdiv`;
* item heights involve the real-valued aspect ratio
  `naturalHeight / naturalWidth`, so heights and the running `columnHeights`
  are embedded as `ℚ` (the JS doubles compute the same rational expressions);
* a DOM element is abstracted by the only four features `positionItem` and
  `layoutWaterfallItem` query: presence of an `.image-info` child, presence
  of a `.recycle-bin-info` child, the `folder-item` class, and the state of
  its `.image-thumbnail` child;
* promise/event asynchrony is modelled by the *settled order* in which the
  per-item callbacks run: a layout pass is a fold over the items in that
  order, and cross-pass interference is modelled by an explicit mutable
  `EngineState` acted on by the `initWaterfallLayout` and `positionItem`
  steps (the code registers `load`/`error` listeners that call
  `positionItem` directly, with no generation token anywhere in the file).
-/

/-- Configuration computed by `initWaterfallLayout` (script.js lines 594-637).
`columnCount`, `itemWidth`, `itemGap` are the globals it assigns;
`containerWidth` is its local `containerWidth`. -/
structure LayoutConfig where
  columnCount : Nat
  itemWidth : Int
  itemGap : Int
  containerWidth : Int
  deriving Repr, DecidableEq

/-- Embedding of `initWaterfallLayout` (script.js lines 594-637).  The second
argument is the value the global `itemGap` holds when the function is entered:
the source computes `itemWidth` from `itemGap` *before* assigning the branch's
own gap (e.g. line 618 reads `itemGap`, line 619 assigns it), so the computed
width depends on that prior value.  `Math.floor` on the integer quotient is
`Int.fdiv`; the one-column width `containerWidth - 40` is already integral. -/
def initWaterfallLayout (w gapPrev : Int) : LayoutConfig :=
  let containerWidth := if w > 1400 then 1400 else w
  if w ≤ 480 then
    { columnCount := 1, itemWidth := containerWidth - 40, itemGap := 12,
      containerWidth := containerWidth }
  else if w ≤ 768 then
    { columnCount := 2, itemWidth := Int.fdiv (containerWidth - 60 - gapPrev) 2,
      itemGap := 12, containerWidth := containerWidth }
  else if w ≤ 1024 then
    { columnCount := 3, itemWidth := Int.fdiv (containerWidth - 60 - 2 * gapPrev) 3,
      itemGap := 14, containerWidth := containerWidth }
  else if w ≤ 1200 then
    { columnCount := 4, itemWidth := Int.fdiv (containerWidth - 60 - 3 * gapPrev) 4,
      itemGap := 16, containerWidth := containerWidth }
  else
    { columnCount := 5, itemWidth := Int.fdiv (containerWidth - 60 - 4 * gapPrev) 5,
      itemGap := 16, containerWidth := containerWidth }

/-- Natural dimensions of a loaded `<img>`; DOM `naturalWidth`/`naturalHeight`
are non-negative integers. -/
structure Img where
  naturalWidth : Nat
  naturalHeight : Nat
  deriving Repr, DecidableEq

/-- State of an element's `.image-thumbnail` child as `layoutWaterfallItem`
(script.js lines 639-674) observes it: absent (`querySelector` returns null),
already complete, or pending with a terminal `load` or `error` event. -/
inductive ThumbState where
  | absent : ThumbState
  | complete : Img → ThumbState
  | loadsLater : Img → ThumbState
  | failsLater : ThumbState
  deriving Repr, DecidableEq

/-- Abstraction of a grid item element: the only features the engine reads. -/
structure Element where
  hasImageInfo : Bool
  hasRecycleInfo : Bool
  isFolderItem : Bool
  thumb : ThumbState
  deriving Repr, DecidableEq

/-- Which `img` argument `layoutWaterfallItem` passes to `positionItem`
(script.js lines 644-668): `null` when there is no thumbnail or on `error`,
the image element when complete or on `load`. -/
def imgArg : ThumbState → Option Img
  | ThumbState.absent => none
  | ThumbState.complete i => some i
  | ThumbState.loadsLater i => some i
  | ThumbState.failsLater => none

/-- Whether `layoutWaterfallItem` positions the element synchronously, without
registering load listeners (script.js lines 644-654): true when the thumbnail
is absent or already complete. -/
def placesImmediately : ThumbState → Bool
  | ThumbState.absent => true
  | ThumbState.complete _ => true
  | ThumbState.loadsLater _ => false
  | ThumbState.failsLater => false

/-- Element built by `createFolderItem` (script.js lines 515-558): class
`folder-item`, no `.image-thumbnail`, `.image-info` or `.recycle-bin-info`
children (its preview image has class `folder-preview-image`). -/
def createFolderItem : Element :=
  { hasImageInfo := false, hasRecycleInfo := false, isFolderItem := true,
    thumb := ThumbState.absent }

/-- Item height computed by the first revision of `positionItem`
(script.js lines 697-720): a measurable image (truthy `naturalWidth` and
`naturalHeight`) gets `itemWidth * (naturalHeight / naturalWidth)` plus a
caption height of 50 for `.image-info`, else 30 for `.recycle-bin-info`,
else 0; otherwise a `folder-item` gets 220 + 60 and anything else gets
`itemWidth + 50`. -/
def positionItemHeight (itemWidth : ℚ) (e : Element) (img : Option Img) : ℚ :=
  match img with
  | some i =>
    if 0 < i.naturalWidth ∧ 0 < i.naturalHeight then
      itemWidth * ((i.naturalHeight : ℚ) / (i.naturalWidth : ℚ)) +
        (if e.hasImageInfo then 50 else if e.hasRecycleInfo then 30 else 0)
    else if e.isFolderItem then 220 + 60
    else itemWidth + 50
  | none =>
    if e.isFolderItem then 220 + 60
    else itemWidth + 50

/-- Item height computed by the second revision of `positionItem`
(script.js lines 2259-2276): identical to `positionItemHeight` except that
line 2266 charges 50 for `.image-info` and nothing for `.recycle-bin-info`. -/
def positionItemHeight2 (itemWidth : ℚ) (e : Element) (img : Option Img) : ℚ :=
  match img with
  | some i =>
    if 0 < i.naturalWidth ∧ 0 < i.naturalHeight then
      itemWidth * ((i.naturalHeight : ℚ) / (i.naturalWidth : ℚ)) +
        (if e.hasImageInfo then 50 else 0)
    else if e.isFolderItem then 220 + 60
    else itemWidth + 50
  | none =>
    if e.isFolderItem then 220 + 60
    else itemWidth + 50

/-- The scan loop of `positionItem` (script.js lines 678-686): starting from
candidate index `best` with height `bestH`, visit the remaining heights (the
next one having index `i`) and keep the strictly smaller one, so ties keep
the earlier index.  Returns the chosen index and its height. -/
def scanShortest : List ℚ → Nat → Nat → ℚ → Nat × ℚ
  | [], _, best, bestH => (best, bestH)
  | x :: t, i, best, bestH =>
    if x < bestH then scanShortest t (i + 1) i x
    else scanShortest t (i + 1) best bestH

/-- The `shortestColumn` / `minHeight` pair computed by `positionItem`
(script.js lines 678-686): index 0 and `columnHeights[0]` seed the scan,
the loop runs over the remaining entries. -/
def findShortestColumn (heights : List ℚ) : Nat × ℚ :=
  match heights with
  | [] => (0, 0)
  | h :: t => scanShortest t 1 0 h

/-- Position written to an element's style by `positionItem`
(script.js lines 689-695). -/
structure Position where
  left : ℚ
  top : ℚ
  width : ℚ
  deriving Repr, DecidableEq

/-- Embedding of the first revision of `positionItem` (script.js
lines 676-728) acting on the column-heights array: choose the shortest
column, emit the element's position, and bump that column by
`itemHeight + itemGap`.  Returns the position and the updated heights. -/
def positionItem (itemWidth itemGap : ℚ) (heights : List ℚ)
    (e : Element) (img : Option Img) : Position × List ℚ :=
  let shortestColumn := (findShortestColumn heights).1
  let left := (shortestColumn : ℚ) * (itemWidth + itemGap)
  let top := heights.getD shortestColumn 0
  let itemHeight := positionItemHeight itemWidth e img
  (⟨left, top, itemWidth⟩,
    heights.set shortestColumn (top + itemHeight + itemGap))

/-- Embedding of the second revision of `positionItem` (script.js
lines 2238-2284): identical to `positionItem` except for the caption-height
computation (`positionItemHeight2`). -/
def positionItem2 (itemWidth itemGap : ℚ) (heights : List ℚ)
    (e : Element) (img : Option Img) : Position × List ℚ :=
  let shortestColumn := (findShortestColumn heights).1
  let left := (shortestColumn : ℚ) * (itemWidth + itemGap)
  let top := heights.getD shortestColumn 0
  let itemHeight := positionItemHeight2 itemWidth e img
  (⟨left, top, itemWidth⟩,
    heights.set shortestColumn (top + itemHeight + itemGap))

/-- Value of `Math.max(...columnHeights)` for a non-empty heights array
(script.js line 726); the empty case never arises in a pass. -/
def maxHeights : List ℚ → ℚ
  | [] => 0
  | h :: t => t.foldl max h

/-- Folds `positionItem` over the items of a pass in the order in which their
callbacks settle (script.js lines 737-739 launch `layoutWaterfallItem` for
every item; each terminal callback runs `positionItem` exactly once).
Returns the positions in that order and the final column heights. -/
def placeAll (itemWidth itemGap : ℚ) (heights : List ℚ) :
    List (Element × Option Img) → List Position × List ℚ
  | [] => ([], heights)
  | (e, img) :: rest =>
    let step := positionItem itemWidth itemGap heights e img
    let next := placeAll itemWidth itemGap step.2 rest
    (step.1 :: next.1, next.2)

/-- Result of one whole layout pass (`layoutWaterfall`, script.js
lines 730-740): config, per-item positions, final column heights, and the
container height as last written by `positionItem` (the maximum of the
final heights). -/
structure PassResult where
  config : LayoutConfig
  positions : List Position
  finalHeights : List ℚ
  containerHeight : ℚ
  deriving Repr, DecidableEq

/-- Embedding of `layoutWaterfall` (script.js lines 730-740) for a fixed
settled order of item callbacks: run `initWaterfallLayout` (which resets
`columnHeights` to zeros of the new length, line 636), then place every item.
`gapPrev` is the global `itemGap` on entry. -/
def layoutWaterfall (w gapPrev : Int) (items : List (Element × Option Img)) :
    PassResult :=
  let cfg := initWaterfallLayout w gapPrev
  let heights0 : List ℚ := List.replicate cfg.columnCount 0
  let run := placeAll (cfg.itemWidth : ℚ) (cfg.itemGap : ℚ) heights0 items
  { config := cfg, positions := run.1, finalHeights := run.2,
    containerHeight := maxHeights run.2 }

/-- The engine's mutable globals (script.js lines 20-23) together with the
container height style, for reasoning about interleaved passes. -/
structure EngineState where
  columnHeights : List ℚ
  columnCount : Nat
  itemWidth : Int
  itemGap : Int
  containerHeight : Option ℚ
  deriving Repr, DecidableEq

/-- Initial values of the globals (script.js lines 20-23); the container
height starts unset (`auto`). -/
def initialEngineState : EngineState :=
  { columnHeights := [], columnCount := 0, itemWidth := 236, itemGap := 16,
    containerHeight := none }

/-- Effect of `initWaterfallLayout` on the globals: recompute the config from
the stored `itemGap`, reset `columnHeights` to zeros (line 636) and the
container height to `auto` (line 601). -/
def stepInit (w : Int) (s : EngineState) : EngineState :=
  let cfg := initWaterfallLayout w s.itemGap
  { columnHeights := List.replicate cfg.columnCount 0,
    columnCount := cfg.columnCount, itemWidth := cfg.itemWidth,
    itemGap := cfg.itemGap, containerHeight := none }

/-- Effect of one `positionItem` call on the globals — exactly what a `load`
or `error` listener registered by `layoutWaterfallItem` executes when it
fires, whichever pass registered it: the code calls `positionItem`
unconditionally (script.js lines 656-668), against whatever the globals
currently hold. -/
def stepPosition (e : Element) (img : Option Img) (s : EngineState) :
    EngineState :=
  let r := positionItem (s.itemWidth : ℚ) (s.itemGap : ℚ) s.columnHeights e img
  { s with columnHeights := r.2, containerHeight := some (maxHeights r.2) }

/-- Folds the settled per-item callbacks of a pass over the engine state:
each terminal callback runs `positionItem` against the current globals
(script.js lines 737-739 launch one `layoutWaterfallItem` per item). -/
def runItems (items : List (Element × Option Img)) (s : EngineState) :
    EngineState :=
  items.foldl (fun t x => stepPosition x.1 x.2 t) s

/-- The measurability test on script.js line 700: `positionItem` received a
non-null `img` whose `naturalWidth` and `naturalHeight` are both truthy. -/
def measurableImg : Option Img → Bool
  | some i => decide (0 < i.naturalWidth) && decide (0 < i.naturalHeight)
  | none => false

/-- A whole layout pass over `n` folder items, acting on the engine state:
`initWaterfallLayout` (which resets the heights) followed by the `n`
placement callbacks (every folder item resolves synchronously with a null
`img`, since `createFolderItem` attaches no `.image-thumbnail`). -/
def folderOnlyPass (w : Int) (n : Nat) (s0 : EngineState) : EngineState :=
  runItems (List.replicate n (createFolderItem, imgArg createFolderItem.thumb))
    (stepInit w s0)

/-! ## Helper lemmas -/

/-- Correctness of the scan loop: given that `t` is the suffix of the full
heights array `L` starting at index `i`, and that `best`/`bestH` describe the
leftmost minimum of the prefix, the scan returns the index and value of the
leftmost minimum of all of `L`. -/
theorem scanShortest_spec (t : List ℚ) : ∀ (L : List ℚ) (i best : Nat) (bestH : ℚ),
    L.length = i + t.length →
    (∀ k, k < t.length → L.getD (i + k) 0 = t.getD k 0) →
    best < i →
    L.getD best 0 = bestH →
    (∀ j, j < i → bestH ≤ L.getD j 0) →
    (∀ j, j < best → bestH < L.getD j 0) →
    (scanShortest t i best bestH).1 < L.length ∧
    L.getD (scanShortest t i best bestH).1 0 = (scanShortest t i best bestH).2 ∧
    (∀ j, j < L.length → (scanShortest t i best bestH).2 ≤ L.getD j 0) ∧
    (∀ j, j < (scanShortest t i best bestH).1 →
      (scanShortest t i best bestH).2 < L.getD j 0) := by
  induction t with
  | nil =>
    intro L i best bestH hlen _hsuf hbi hval hle hlt
    simp only [List.length_nil, Nat.add_zero] at hlen
    simp only [scanShortest]
    refine ⟨?_, hval, ?_, hlt⟩
    · omega
    · intro j hj
      exact hle j (by omega)
  | cons x tt ih =>
    intro L i best bestH hlen hsuf hbi hval hle hlt
    have hxi : L.getD i 0 = x := by
      have := hsuf 0 (by simp)
      simpa using this
    have hsuf' : ∀ k, k < tt.length → L.getD (i + 1 + k) 0 = tt.getD k 0 := by
      intro k hk
      have := hsuf (k + 1) (by simp; omega)
      simpa [Nat.add_assoc, Nat.add_comm 1 k] using this
    simp only [scanShortest]
    by_cases hx : x < bestH
    · simp only [hx, if_true]
      apply ih L (i + 1) i x
      · simp at hlen; omega
      · exact hsuf'
      · omega
      · exact hxi
      · intro j hj
        rcases Nat.lt_or_ge j i with hji | hji
        · exact le_of_lt (lt_of_lt_of_le hx (hle j hji))
        · have : j = i := by omega
          rw [this, hxi]
      · intro j hj
        exact lt_of_lt_of_le hx (hle j hj)
    · simp only [hx, if_false]
      apply ih L (i + 1) best bestH
      · simp at hlen; omega
      · exact hsuf'
      · omega
      · exact hval
      · intro j hj
        rcases Nat.lt_or_ge j i with hji | hji
        · exact hle j hji
        · have : j = i := by omega
          rw [this, hxi]
          exact le_of_not_lt hx
      · exact hlt

/-- The `shortestColumn` chosen by `positionItem` is in range, its stored
height is the returned minimum, that minimum is at most every column's
height, and every column strictly left of the choice is strictly taller
(leftmost tie-breaking). -/
theorem findShortestColumn_spec (heights : List ℚ) (hne : heights ≠ []) :
    (findShortestColumn heights).1 < heights.length ∧
    heights.getD (findShortestColumn heights).1 0 = (findShortestColumn heights).2 ∧
    (∀ j, j < heights.length → (findShortestColumn heights).2 ≤ heights.getD j 0) ∧
    (∀ j, j < (findShortestColumn heights).1 →
      (findShortestColumn heights).2 < heights.getD j 0) := by
  match heights with
  | [] => exact absurd rfl hne
  | h :: t =>
    simp only [findShortestColumn]
    apply scanShortest_spec t (h :: t) 1 0 h
    · simp; omega
    · intro k hk
      simp [Nat.add_comm 1 k]
    · omega
    · simp
    · intro j hj
      have : j = 0 := by omega
      simp [this]
    · intro j hj
      omega

/-- Reading back the written cell of `List.set`. -/
theorem getD_set_self (l : List ℚ) (i : Nat) (a : ℚ) (h : i < l.length) :
    (l.set i a).getD i 0 = a := by
  simp [List.getD, List.getElem?_set_self, h]

/-- Reading any other cell of `List.set`. -/
theorem getD_set_ne (l : List ℚ) (i j : Nat) (a : ℚ) (h : i ≠ j) :
    (l.set i a).getD j 0 = l.getD j 0 := by
  simp [List.getD, List.getElem?_set_ne h]

/-- Multiplying a floor-division by a positive divisor stays below the
dividend. -/
theorem int_mul_fdiv_le (a n : Int) (hn : 0 < n) : n * Int.fdiv a n ≤ a := by
  have h1 := Int.fdiv_add_fmod a n
  have h2 := Int.fmod_nonneg' a hn
  omega

/-! ## C1: the placement step -/

/-- C1: at every placement step with a non-empty heights array, `positionItem`
commits the item to the column of minimum current height with ties broken by
the lowest index (strictly shorter than every column to its left), assigns
left `column * (itemWidth + itemGap)`, top the column's height before the
commit, width `itemWidth`, and increases exactly the chosen column's height by
`itemHeight + itemGap`, leaving every other column unchanged. -/
theorem positionItem_step_correct (itemWidth itemGap : ℚ) (heights : List ℚ)
    (e : Element) (img : Option Img) (hne : heights ≠ []) :
    (findShortestColumn heights).1 < heights.length ∧
    (∀ j, j < heights.length →
      heights.getD (findShortestColumn heights).1 0 ≤ heights.getD j 0) ∧
    (∀ j, j < (findShortestColumn heights).1 →
      heights.getD (findShortestColumn heights).1 0 < heights.getD j 0) ∧
    (positionItem itemWidth itemGap heights e img).1.left
      = ((findShortestColumn heights).1 : ℚ) * (itemWidth + itemGap) ∧
    (positionItem itemWidth itemGap heights e img).1.top
      = heights.getD (findShortestColumn heights).1 0 ∧
    (positionItem itemWidth itemGap heights e img).1.width = itemWidth ∧
    (positionItem itemWidth itemGap heights e img).2.length = heights.length ∧
    (positionItem itemWidth itemGap heights e img).2.getD
        (findShortestColumn heights).1 0
      = heights.getD (findShortestColumn heights).1 0
        + positionItemHeight itemWidth e img + itemGap ∧
    (∀ j, j < heights.length → j ≠ (findShortestColumn heights).1 →
      (positionItem itemWidth itemGap heights e img).2.getD j 0
        = heights.getD j 0) := by
  obtain ⟨hlt, hval, hmin, hleft⟩ := findShortestColumn_spec heights hne
  refine ⟨hlt, ?_, ?_, rfl, rfl, rfl, ?_, ?_, ?_⟩
  · intro j hj
    rw [hval]
    exact hmin j hj
  · intro j hj
    rw [hval]
    exact hleft j hj
  · simp only [positionItem, List.length_set]
  · simp only [positionItem]
    exact getD_set_self heights _ _ hlt
  · intro j hj hjc
    simp only [positionItem]
    exact getD_set_ne heights _ j _ (fun h => hjc h.symm)

/-- Witness for C1 at heights `[5, 2, 2]` (chosen column 1), an
`.image-info` image item of aspect 2:1, `itemWidth = 100`, `itemGap = 10`. -/
theorem positionItem_step_correct_witness :
    ([(5 : ℚ), 2, 2] ≠ []) ∧
    ((findShortestColumn [(5 : ℚ), 2, 2]).1 = 1 ∧
      (positionItem 100 10 [(5 : ℚ), 2, 2]
        { hasImageInfo := true, hasRecycleInfo := false, isFolderItem := false,
          thumb := ThumbState.complete ⟨2, 1⟩ } (some ⟨2, 1⟩)).1
        = ⟨110, 2, 100⟩ ∧
      (positionItem 100 10 [(5 : ℚ), 2, 2]
        { hasImageInfo := true, hasRecycleInfo := false, isFolderItem := false,
          thumb := ThumbState.complete ⟨2, 1⟩ } (some ⟨2, 1⟩)).2
        = [5, 112, 2]) ∧
    (positionItem 100 10 [(5 : ℚ), 2, 2]
        { hasImageInfo := true, hasRecycleInfo := false, isFolderItem := false,
          thumb := ThumbState.complete ⟨2, 1⟩ } (some ⟨2, 1⟩)).1.top
      = List.getD [(5 : ℚ), 2, 2] (findShortestColumn [(5 : ℚ), 2, 2]).1 0 := by
  refine ⟨by decide, ⟨by decide, ?_, ?_⟩, ?_⟩
  · norm_num [positionItem, positionItemHeight, findShortestColumn, scanShortest]
  · norm_num [positionItem, positionItemHeight, findShortestColumn, scanShortest]
  · exact (positionItem_step_correct 100 10 [(5 : ℚ), 2, 2]
      { hasImageInfo := true, hasRecycleInfo := false, isFolderItem := false,
        thumb := ThumbState.complete ⟨2, 1⟩ } (some ⟨2, 1⟩) (by decide)).2.2.2.2.1

/-! ## C2, C3: breakpoint sizing and the stale gap -/

/-- C2: at viewport width 1000, entered with the engine's initial
`itemGap = 16` (script.js line 23), `initWaterfallLayout` produces the
table's column count (3), gap (14) and container width (1000), but item
width `floor((1000 - 60 - 2*16)/3) = 302` rather than the specified
`floor((1000 - 60 - 2*14)/3) = 304`: lines 618-619 read the stale gap
before assigning the row's gap. -/
theorem initWaterfallLayout_width_uses_stale_gap :
    initWaterfallLayout 1000 initialEngineState.itemGap =
      { columnCount := 3, itemWidth := 302, itemGap := 14,
        containerWidth := 1000 } ∧
    (initWaterfallLayout 1000 initialEngineState.itemGap).itemWidth ≠ 304 := by
  decide

/-- C3: `initWaterfallLayout` is not a function of the viewport width alone:
invoked twice at width 1000, once after a pass left `itemGap = 12` and once
after a pass left `itemGap = 16`, it returns different configs (item width
305 versus 302). -/
theorem initWaterfallLayout_depends_on_prior_gap :
    (initWaterfallLayout 1000 12).itemWidth = 305 ∧
    (initWaterfallLayout 1000 16).itemWidth = 302 ∧
    initWaterfallLayout 1000 12 ≠ initWaterfallLayout 1000 16 := by
  decide

/-! ## C5: the container-width invariant -/

/-- C5: for every viewport width and every gap value a previous pass can
leave behind (each branch of `initWaterfallLayout` stores 12, 14 or 16, and
the initial value is 16), the produced config satisfies
`columnCount * itemWidth + (columnCount - 1) * itemGap ≤ containerWidth`,
and the stored gap is again one of 12, 14, 16 — so the invariant holds for
every reachable engine state. -/
theorem initWaterfallLayout_width_invariant (w gapPrev : Int)
    (hg : gapPrev = 12 ∨ gapPrev = 14 ∨ gapPrev = 16) :
    ((initWaterfallLayout w gapPrev).columnCount : Int)
        * (initWaterfallLayout w gapPrev).itemWidth
      + (((initWaterfallLayout w gapPrev).columnCount : Int) - 1)
        * (initWaterfallLayout w gapPrev).itemGap
      ≤ (initWaterfallLayout w gapPrev).containerWidth ∧
    ((initWaterfallLayout w gapPrev).itemGap = 12 ∨
      (initWaterfallLayout w gapPrev).itemGap = 14 ∨
      (initWaterfallLayout w gapPrev).itemGap = 16) := by
  unfold initWaterfallLayout
  set cw : Int := if w > 1400 then 1400 else w with hcw
  split_ifs with h1 h2 h3 h4
  · constructor
    · push_cast
      omega
    · simp
  · have := int_mul_fdiv_le (cw - 60 - gapPrev) 2 (by norm_num)
    constructor
    · push_cast
      omega
    · simp
  · have := int_mul_fdiv_le (cw - 60 - 2 * gapPrev) 3 (by norm_num)
    constructor
    · push_cast
      omega
    · simp
  · have := int_mul_fdiv_le (cw - 60 - 3 * gapPrev) 4 (by norm_num)
    constructor
    · push_cast
      omega
    · simp
  · have := int_mul_fdiv_le (cw - 60 - 4 * gapPrev) 5 (by norm_num)
    constructor
    · push_cast
      omega
    · simp

/-- Witness for C5 at width 1000 with prior gap 16:
`3 * 302 + 2 * 14 = 934 ≤ 1000`. -/
theorem initWaterfallLayout_width_invariant_witness :
    ((16 : Int) = 12 ∨ (16 : Int) = 14 ∨ (16 : Int) = 16) ∧
    (((initWaterfallLayout 1000 16).columnCount : Int)
        * (initWaterfallLayout 1000 16).itemWidth
      + (((initWaterfallLayout 1000 16).columnCount : Int) - 1)
        * (initWaterfallLayout 1000 16).itemGap
      ≤ (initWaterfallLayout 1000 16).containerWidth ∧
    ((initWaterfallLayout 1000 16).itemGap = 12 ∨
      (initWaterfallLayout 1000 16).itemGap = 14 ∨
      (initWaterfallLayout 1000 16).itemGap = 16)) :=
  ⟨by decide, initWaterfallLayout_width_invariant 1000 16 (by decide)⟩

/-! ## C4: re-running a pass -/

/-- C4: two successive layout passes at viewport width 1000 over the same
single folder item, with identical measurement outcomes, starting from the
engine's initial state (`itemGap = 16`): each pass starts from all-zero
column heights, yet the first pass positions the item with width 302 and the
second with width 304, because the first pass's gap assignment (14) changes
the width the second pass computes.  The final positions are not identical. -/
theorem layoutWaterfall_rerun_differs :
    (layoutWaterfall 1000 initialEngineState.itemGap
        [(createFolderItem, imgArg createFolderItem.thumb)]).positions
      = [⟨0, 0, 302⟩] ∧
    (layoutWaterfall 1000
        ((layoutWaterfall 1000 initialEngineState.itemGap
          [(createFolderItem, imgArg createFolderItem.thumb)]).config.itemGap)
        [(createFolderItem, imgArg createFolderItem.thumb)]).positions
      = [⟨0, 0, 304⟩] ∧
    (layoutWaterfall 1000 initialEngineState.itemGap
        [(createFolderItem, imgArg createFolderItem.thumb)]).positions
      ≠ (layoutWaterfall 1000
        ((layoutWaterfall 1000 initialEngineState.itemGap
          [(createFolderItem, imgArg createFolderItem.thumb)]).config.itemGap)
        [(createFolderItem, imgArg createFolderItem.thumb)]).positions := by
  have h16 : initWaterfallLayout 1000 (16 : Int) =
      { columnCount := 3, itemWidth := 302, itemGap := 14,
        containerWidth := 1000 } := by decide
  have h14 : initWaterfallLayout 1000 (14 : Int) =
      { columnCount := 3, itemWidth := 304, itemGap := 14,
        containerWidth := 1000 } := by decide
  refine ⟨?_, ?_, ?_⟩ <;>
    simp [layoutWaterfall, initialEngineState, h16, h14, placeAll,
      positionItem, positionItemHeight, findShortestColumn, scanShortest,
      createFolderItem, imgArg, List.replicate]

/-! ## C6: committed heights -/

/-- C6: a successfully measured image (positive natural dimensions) is
committed with height `itemWidth * (naturalHeight / naturalWidth)` plus a
caption height of 50 when the item carries the full-info caption, else 30
when it carries the deleted-at caption, else 0; a folder item is committed
with the fixed height 220 + 60 = 280 and is placed synchronously, without
waiting on any image load. -/
theorem itemHeight_formula (itemWidth : ℚ) (e : Element) (i : Img)
    (hw : 0 < i.naturalWidth) (hh : 0 < i.naturalHeight) :
    positionItemHeight itemWidth e (some i) =
      itemWidth * ((i.naturalHeight : ℚ) / (i.naturalWidth : ℚ)) +
        (if e.hasImageInfo then 50 else if e.hasRecycleInfo then 30 else 0) ∧
    positionItemHeight itemWidth createFolderItem (imgArg createFolderItem.thumb)
      = 220 + 60 ∧
    placesImmediately createFolderItem.thumb = true := by
  refine ⟨?_, rfl, rfl⟩
  simp [positionItemHeight, hw, hh]

/-- Witness for C6 with a full-info 4:3 image at item width 100:
`100 * (3/4) + 50 = 125`. -/
theorem itemHeight_formula_witness :
    (0 < (4 : Nat) ∧ 0 < (3 : Nat)) ∧
    (positionItemHeight 100
        { hasImageInfo := true, hasRecycleInfo := false, isFolderItem := false,
          thumb := ThumbState.complete ⟨4, 3⟩ } (some ⟨4, 3⟩) =
        100 * (((3 : Nat) : ℚ) / ((4 : Nat) : ℚ)) +
          (if true then 50 else if false then 30 else 0) ∧
      positionItemHeight 100 createFolderItem (imgArg createFolderItem.thumb)
        = 220 + 60 ∧
      placesImmediately createFolderItem.thumb = true) :=
  ⟨⟨by decide, by decide⟩,
    itemHeight_formula 100
      { hasImageInfo := true, hasRecycleInfo := false, isFolderItem := false,
        thumb := ThumbState.complete ⟨4, 3⟩ } ⟨4, 3⟩ (by decide) (by decide)⟩

/-! ## C7: load failure is non-fatal -/

/-- C7: an item that is not a folder whose image load terminates in failure,
or which has no image element at all, is still placed, with fallback height
`itemWidth + 50`; and a layout pass hands back exactly one position per item
(every item, including failed ones, is positioned and the pass completes),
whatever the other items' outcomes are. -/
theorem fallback_height_and_pass_completion (itemWidth itemGap : ℚ)
    (e : Element) (hnf : e.isFolderItem = false)
    (ht : e.thumb = ThumbState.failsLater ∨ e.thumb = ThumbState.absent) :
    positionItemHeight itemWidth e (imgArg e.thumb) = itemWidth + 50 ∧
    ∀ (heights : List ℚ) (items : List (Element × Option Img)),
      (placeAll itemWidth itemGap heights items).1.length = items.length := by
  constructor
  · rcases ht with h | h <;> simp [h, imgArg, positionItemHeight, hnf]
  · intro heights items
    induction items generalizing heights with
    | nil => rfl
    | cons it rest ih => simp [placeAll, ih]

/-- Witness for C7: a malformed image item whose load errors, at item width
236 and gap 16, in a pass together with a folder item. -/
theorem fallback_height_and_pass_completion_witness :
    ((Element.mk false false false ThumbState.failsLater).isFolderItem = false ∧
      ((Element.mk false false false ThumbState.failsLater).thumb
          = ThumbState.failsLater ∨
        (Element.mk false false false ThumbState.failsLater).thumb
          = ThumbState.absent)) ∧
    (positionItemHeight 236 (Element.mk false false false ThumbState.failsLater)
        (imgArg (Element.mk false false false ThumbState.failsLater).thumb)
        = 236 + 50 ∧
      ∀ (heights : List ℚ) (items : List (Element × Option Img)),
        (placeAll 236 16 heights items).1.length = items.length) :=
  ⟨⟨by decide, by decide⟩,
    fallback_height_and_pass_completion 236 16
      (Element.mk false false false ThumbState.failsLater)
      (by decide) (by decide)⟩

/-! ## C8: stale loads from a superseded pass -/

/-- C8: the code carries no generation token, and a `load` or `error`
listener registered during an earlier pass runs `positionItem`
unconditionally when it fires.  Concretely: a pass at width 1000 leaves an
image item pending; a newer pass at width 400 resets `columnHeights` to
`[0]` (one column); the stale item's late `load` event then places it
against the current pass, mutating the current `columnHeights` from `[0]`
to `[372]` and overwriting the container height — the stale measurement is
not discarded. -/
theorem stale_load_mutates_current_pass :
    (stepInit 400 (stepInit 1000 initialEngineState)).columnHeights = [0] ∧
    (stepPosition
        (Element.mk false false false (ThumbState.loadsLater ⟨400, 400⟩))
        (some ⟨400, 400⟩)
        (stepInit 400 (stepInit 1000 initialEngineState))).columnHeights
      = [372] ∧
    (stepPosition
        (Element.mk false false false (ThumbState.loadsLater ⟨400, 400⟩))
        (some ⟨400, 400⟩)
        (stepInit 400 (stepInit 1000 initialEngineState))).columnHeights
      ≠ (stepInit 400 (stepInit 1000 initialEngineState)).columnHeights ∧
    (stepPosition
        (Element.mk false false false (ThumbState.loadsLater ⟨400, 400⟩))
        (some ⟨400, 400⟩)
        (stepInit 400 (stepInit 1000 initialEngineState))).containerHeight
      ≠ (stepInit 400 (stepInit 1000 initialEngineState)).containerHeight := by
  have hB : stepInit 400 (stepInit 1000 initialEngineState) =
      { columnHeights := [0], columnCount := 1, itemWidth := 360,
        itemGap := 12, containerHeight := none } := by decide
  refine ⟨by rw [hB], ?_, ?_, ?_⟩ <;> rw [hB]
  · norm_num [stepPosition, positionItem, positionItemHeight,
      findShortestColumn, scanShortest, maxHeights]
  · norm_num [stepPosition, positionItem, positionItemHeight,
      findShortestColumn, scanShortest, maxHeights]
  · simp [stepPosition]

/-! ## C9: balance over folder items -/

/-- C9 as stated is false: a pass at width 1000 (3 columns, gap 14, entered
with prior gap 14) over five folder items of height 280 ends with column
heights `[588, 588, 294]`; columns 0 and 2 differ by 294, which is not less
than one folder item's height 280 (each commit adds `280 + itemGap`).  The
container height does equal the maximum, 588. -/
theorem folder_balance_strict_counterexample :
    (layoutWaterfall 1000 14 (List.replicate 5
        (createFolderItem, imgArg createFolderItem.thumb))).finalHeights
      = [588, 588, 294] ∧
    (layoutWaterfall 1000 14 (List.replicate 5
        (createFolderItem, imgArg createFolderItem.thumb))).containerHeight
      = 588 ∧
    ¬((layoutWaterfall 1000 14 (List.replicate 5
          (createFolderItem, imgArg createFolderItem.thumb))).finalHeights.getD 0 0
        - (layoutWaterfall 1000 14 (List.replicate 5
          (createFolderItem, imgArg createFolderItem.thumb))).finalHeights.getD 2 0
        < 280) := by
  have h14 : initWaterfallLayout 1000 (14 : Int) =
      { columnCount := 3, itemWidth := 304, itemGap := 14,
        containerWidth := 1000 } := by decide
  refine ⟨?_, ?_, ?_⟩ <;>
    norm_num [layoutWaterfall, h14, placeAll, positionItem, positionItemHeight,
      findShortestColumn, scanShortest, createFolderItem, imgArg,
      List.replicate, maxHeights]

/-! ## C9 amended: balance bound and container height -/

/-- Every branch of `initWaterfallLayout` stores gap 12, 14 or 16. -/
theorem initWaterfallLayout_itemGap_cases (w g : Int) :
    (initWaterfallLayout w g).itemGap = 12 ∨
    (initWaterfallLayout w g).itemGap = 14 ∨
    (initWaterfallLayout w g).itemGap = 16 := by
  unfold initWaterfallLayout
  split_ifs <;> simp

/-- Every branch of `initWaterfallLayout` stores at least one column. -/
theorem initWaterfallLayout_columnCount_pos (w g : Int) :
    1 ≤ (initWaterfallLayout w g).columnCount := by
  unfold initWaterfallLayout
  split_ifs <;> simp

/-- Every entry of an all-zero heights array reads back as zero. -/
theorem getD_replicate_zero (n i : Nat) :
    (List.replicate n (0 : ℚ)).getD i 0 = 0 := by
  induction n generalizing i with
  | zero => rfl
  | succ m ih =>
    cases i with
    | zero => rfl
    | succ k => exact ih k

/-- Committing `a` on top of a minimal column preserves the pairwise bound
`a` on column-height differences. -/
theorem balance_step (hs : List ℚ) (c : Nat) (v a : ℚ) (hc : c < hs.length)
    (hmin : ∀ j, j < hs.length → hs.getD c 0 ≤ hs.getD j 0)
    (ha : 0 ≤ a)
    (hv : v = hs.getD c 0 + a)
    (hinv : ∀ i j, i < hs.length → j < hs.length →
      hs.getD i 0 - hs.getD j 0 ≤ a) :
    ∀ i j, i < hs.length → j < hs.length →
      (hs.set c v).getD i 0 - (hs.set c v).getD j 0 ≤ a := by
  intro i j hi hj
  by_cases hic : i = c <;> by_cases hjc : j = c
  · rw [hic, hjc, getD_set_self hs c v hc]
    linarith
  · rw [hic, getD_set_self hs c v hc,
      getD_set_ne hs c j v (fun h => hjc h.symm), hv]
    linarith [hmin j hj]
  · rw [hjc, getD_set_self hs c v hc,
      getD_set_ne hs c i v (fun h => hic h.symm), hv]
    linarith [hinv i c hi hc]
  · rw [getD_set_ne hs c i v (fun h => hic h.symm),
      getD_set_ne hs c j v (fun h => hjc h.symm)]
    exact hinv i j hi hj
/-- Folding any number of folder-item placements over an engine state keeps
the gap and the number of columns, and preserves the pairwise bound
`280 + itemGap` on column-height differences. -/
theorem runItems_folder_balance (n : Nat) :
    ∀ s : EngineState,
      0 ≤ (s.itemGap : ℚ) →
      s.columnHeights ≠ [] →
      (∀ i j, i < s.columnHeights.length → j < s.columnHeights.length →
        s.columnHeights.getD i 0 - s.columnHeights.getD j 0
          ≤ 220 + 60 + (s.itemGap : ℚ)) →
      (runItems (List.replicate n
          (createFolderItem, imgArg createFolderItem.thumb)) s).itemGap
        = s.itemGap ∧
      (runItems (List.replicate n
          (createFolderItem, imgArg createFolderItem.thumb)) s).columnHeights.length
        = s.columnHeights.length ∧
      (∀ i j,
        i < (runItems (List.replicate n
          (createFolderItem, imgArg createFolderItem.thumb)) s).columnHeights.length →
        j < (runItems (List.replicate n
          (createFolderItem, imgArg createFolderItem.thumb)) s).columnHeights.length →
        (runItems (List.replicate n
          (createFolderItem, imgArg createFolderItem.thumb)) s).columnHeights.getD i 0
          - (runItems (List.replicate n
            (createFolderItem, imgArg createFolderItem.thumb)) s).columnHeights.getD j 0
          ≤ 220 + 60 + (s.itemGap : ℚ)) := by
  induction n with
  | zero =>
    intro s _ _ hinv
    exact ⟨rfl, rfl, hinv⟩
  | succ m ih =>
    intro s hgap hne hinv
    rw [List.replicate_succ]
    have hstep : runItems ((createFolderItem, imgArg createFolderItem.thumb) ::
        List.replicate m (createFolderItem, imgArg createFolderItem.thumb)) s
      = runItems (List.replicate m (createFolderItem, imgArg createFolderItem.thumb))
          (stepPosition createFolderItem (imgArg createFolderItem.thumb) s) := rfl
    rw [hstep]
    obtain ⟨hc, hval, hmin, _⟩ := findShortestColumn_spec s.columnHeights hne
    have hfold : positionItemHeight (s.itemWidth : ℚ) createFolderItem none
        = 220 + 60 := by
      norm_num [positionItemHeight, createFolderItem]
    have hheights : (stepPosition createFolderItem (imgArg createFolderItem.thumb)
        s).columnHeights
      = s.columnHeights.set (findShortestColumn s.columnHeights).1
          (s.columnHeights.getD (findShortestColumn s.columnHeights).1 0
            + positionItemHeight (s.itemWidth : ℚ) createFolderItem none
            + (s.itemGap : ℚ)) := rfl
    have hgap' : (stepPosition createFolderItem (imgArg createFolderItem.thumb)
        s).itemGap = s.itemGap := rfl
    have hlen : (stepPosition createFolderItem (imgArg createFolderItem.thumb)
        s).columnHeights.length = s.columnHeights.length := by
      rw [hheights, List.length_set]
    have hinv' : ∀ i j,
        i < (stepPosition createFolderItem (imgArg createFolderItem.thumb)
          s).columnHeights.length →
        j < (stepPosition createFolderItem (imgArg createFolderItem.thumb)
          s).columnHeights.length →
        (stepPosition createFolderItem (imgArg createFolderItem.thumb)
            s).columnHeights.getD i 0
          - (stepPosition createFolderItem (imgArg createFolderItem.thumb)
            s).columnHeights.getD j 0
          ≤ 220 + 60 + (s.itemGap : ℚ) := by
      intro i j hi hj
      rw [hlen] at hi hj
      rw [hheights]
      refine balance_step s.columnHeights (findShortestColumn s.columnHeights).1
        _ (220 + 60 + (s.itemGap : ℚ)) hc ?_ (by linarith) (by rw [hfold]; ring)
        hinv i j hi hj
      intro j' hj'
      rw [hval]
      exact hmin j' hj'
    have hne' : (stepPosition createFolderItem (imgArg createFolderItem.thumb)
        s).columnHeights ≠ [] := by
      rw [← List.length_pos_iff_ne_nil, hlen, List.length_pos_iff_ne_nil]
      exact hne
    have hgapq : 0 ≤ ((stepPosition createFolderItem (imgArg createFolderItem.thumb)
        s).itemGap : ℚ) := by rw [hgap']; exact hgap
    obtain ⟨g1, l1, b1⟩ := ih
      (stepPosition createFolderItem (imgArg createFolderItem.thumb) s)
      hgapq hne' (by rw [hgap']; exact hinv')
    refine ⟨by rw [g1, hgap'], by rw [l1, hlen], ?_⟩
    intro i j hi hj
    have := b1 i j hi hj
    rw [hgap'] at this
    exact this

/-- After at least one placement, the container height the last callback
wrote equals the maximum over the final column heights. -/
theorem runItems_container_eq_max (items : List (Element × Option Img)) :
    ∀ s : EngineState, items ≠ [] →
      (runItems items s).containerHeight
        = some (maxHeights (runItems items s).columnHeights) := by
  induction items with
  | nil =>
    intro s h
    exact absurd rfl h
  | cons x rest ih =>
    intro s _
    have hstep : runItems (x :: rest) s
        = runItems rest (stepPosition x.1 x.2 s) := rfl
    rw [hstep]
    rcases eq_or_ne rest [] with hr | hr
    · subst hr
      rfl
    · exact ih _ hr

/-- C9 amended: after a layout pass over `n ≥ 1` folder items (each of fixed
height 280) under the config computed for any viewport width and any prior
engine state, the entries of `ColumnHeights` pairwise differ by at most one
folder item's *committed* height `280 + itemGap` (not strictly less than
280: each commit adds the gap as well), and the final container height
equals `max(ColumnHeights)`. -/
theorem folderOnlyPass_balanced (w : Int) (n : Nat) (s0 : EngineState)
    (hn : 1 ≤ n) :
    (folderOnlyPass w n s0).columnHeights.length
      = (initWaterfallLayout w s0.itemGap).columnCount ∧
    (∀ i j, i < (folderOnlyPass w n s0).columnHeights.length →
      j < (folderOnlyPass w n s0).columnHeights.length →
      (folderOnlyPass w n s0).columnHeights.getD i 0
        - (folderOnlyPass w n s0).columnHeights.getD j 0
        ≤ 220 + 60 + (((initWaterfallLayout w s0.itemGap).itemGap : Int) : ℚ)) ∧
    (folderOnlyPass w n s0).containerHeight
      = some (maxHeights (folderOnlyPass w n s0).columnHeights) := by
  have hgapcases := initWaterfallLayout_itemGap_cases w s0.itemGap
  have hccpos := initWaterfallLayout_columnCount_pos w s0.itemGap
  have hgap1 : (stepInit w s0).itemGap
      = (initWaterfallLayout w s0.itemGap).itemGap := rfl
  have hh1 : (stepInit w s0).columnHeights
      = List.replicate (initWaterfallLayout w s0.itemGap).columnCount 0 := rfl
  have hgapq : 0 ≤ (((stepInit w s0).itemGap : Int) : ℚ) := by
    rw [hgap1]
    rcases hgapcases with h | h | h <;> rw [h] <;> norm_num
  have hne : (stepInit w s0).columnHeights ≠ [] := by
    rw [hh1, ← List.length_pos_iff_ne_nil, List.length_replicate]
    omega
  have hinv0 : ∀ i j, i < (stepInit w s0).columnHeights.length →
      j < (stepInit w s0).columnHeights.length →
      (stepInit w s0).columnHeights.getD i 0
        - (stepInit w s0).columnHeights.getD j 0
        ≤ 220 + 60 + (((stepInit w s0).itemGap : Int) : ℚ) := by
    intro i j _ _
    rw [hh1, getD_replicate_zero, getD_replicate_zero]
    linarith
  obtain ⟨hg, hl, hb⟩ := runItems_folder_balance n (stepInit w s0)
    hgapq hne hinv0
  have hlen : (folderOnlyPass w n s0).columnHeights.length
      = (initWaterfallLayout w s0.itemGap).columnCount := by
    show (runItems _ (stepInit w s0)).columnHeights.length = _
    rw [hl, hh1, List.length_replicate]
  refine ⟨hlen, ?_, ?_⟩
  · intro i j hi hj
    have := hb i j hi hj
    rw [hgap1] at this
    exact this
  · apply runItems_container_eq_max
    rw [← List.length_pos_iff_ne_nil, List.length_replicate]
    omega

/-- Witness for C9 amended: five folder items at width 1000 from the initial
engine state. -/
theorem folderOnlyPass_balanced_witness :
    1 ≤ 5 ∧
    ((folderOnlyPass 1000 5 initialEngineState).columnHeights.length
      = (initWaterfallLayout 1000 initialEngineState.itemGap).columnCount ∧
    (∀ i j, i < (folderOnlyPass 1000 5 initialEngineState).columnHeights.length →
      j < (folderOnlyPass 1000 5 initialEngineState).columnHeights.length →
      (folderOnlyPass 1000 5 initialEngineState).columnHeights.getD i 0
        - (folderOnlyPass 1000 5 initialEngineState).columnHeights.getD j 0
        ≤ 220 + 60 +
          (((initWaterfallLayout 1000 initialEngineState.itemGap).itemGap : Int) : ℚ)) ∧
    (folderOnlyPass 1000 5 initialEngineState).containerHeight
      = some (maxHeights (folderOnlyPass 1000 5 initialEngineState).columnHeights)) :=
  ⟨by decide, folderOnlyPass_balanced 1000 5 initialEngineState (by decide)⟩

/-! ## C10: the two revisions of positionItem -/

/-- C10: the two revisions of `positionItem` are not equivalent: for a
measurable image item carrying the deleted-at (recycle-bin) caption and no
full-info caption, the first revision commits
`itemWidth * (naturalHeight / naturalWidth) + 30` while the second commits
`itemWidth * (naturalHeight / naturalWidth) + 0`, and the two committed
heights always differ; for every other item shape the two revisions compute
the same position and updated heights. -/
theorem positionItem_revisions (itemWidth itemGap : ℚ) (heights : List ℚ)
    (e : Element) (img : Option Img) :
    (∀ i : Img, img = some i → 0 < i.naturalWidth → 0 < i.naturalHeight →
      e.hasRecycleInfo = true → e.hasImageInfo = false →
      positionItemHeight itemWidth e img
          = itemWidth * ((i.naturalHeight : ℚ) / (i.naturalWidth : ℚ)) + 30 ∧
        positionItemHeight2 itemWidth e img
          = itemWidth * ((i.naturalHeight : ℚ) / (i.naturalWidth : ℚ)) + 0 ∧
        positionItemHeight itemWidth e img
          ≠ positionItemHeight2 itemWidth e img) ∧
    (¬(e.hasRecycleInfo = true ∧ e.hasImageInfo = false ∧
        measurableImg img = true) →
      positionItem itemWidth itemGap heights e img
        = positionItem2 itemWidth itemGap heights e img) := by
  constructor
  · rintro i rfl hw hh hr hinfo
    refine ⟨by simp [positionItemHeight, hw, hh, hr, hinfo], by
      simp [positionItemHeight2, hw, hh, hinfo], ?_⟩
    simp only [positionItemHeight, positionItemHeight2, hw, hh, and_self,
      if_true, hr, hinfo, Bool.false_eq_true, if_false]
    intro hcontra
    have := add_left_cancel hcontra
    norm_num at this
  · intro hno
    have heq : positionItemHeight itemWidth e img
        = positionItemHeight2 itemWidth e img := by
      cases img with
      | none => rfl
      | some i =>
        by_cases hm : 0 < i.naturalWidth ∧ 0 < i.naturalHeight
        · cases hInfo : e.hasImageInfo
          · cases hRec : e.hasRecycleInfo
            · simp [positionItemHeight, positionItemHeight2, hm, hInfo, hRec]
            · exact absurd ⟨hRec, hInfo, by
                simp [measurableImg, hm.1, hm.2]⟩ hno
          · simp [positionItemHeight, positionItemHeight2, hm, hInfo]
        · simp [positionItemHeight, positionItemHeight2, hm]
    simp only [positionItem, positionItem2, heq]

/-- Witness for C10: a deleted-at 1:1 image item at item width 100 gets
height 130 from the first revision and 100 from the second; a full-info
item is positioned identically by both revisions. -/
theorem positionItem_revisions_witness :
    (positionItemHeight 100
        (Element.mk false true false (ThumbState.complete ⟨1, 1⟩))
        (some ⟨1, 1⟩)
        = 100 * (((1 : Nat) : ℚ) / ((1 : Nat) : ℚ)) + 30 ∧
      positionItemHeight2 100
        (Element.mk false true false (ThumbState.complete ⟨1, 1⟩))
        (some ⟨1, 1⟩)
        = 100 * (((1 : Nat) : ℚ) / ((1 : Nat) : ℚ)) + 0 ∧
      positionItemHeight 100
        (Element.mk false true false (ThumbState.complete ⟨1, 1⟩))
        (some ⟨1, 1⟩)
        ≠ positionItemHeight2 100
          (Element.mk false true false (ThumbState.complete ⟨1, 1⟩))
          (some ⟨1, 1⟩)) ∧
    positionItem 100 16 [0]
        (Element.mk true false false (ThumbState.complete ⟨1, 1⟩))
        (some ⟨1, 1⟩)
      = positionItem2 100 16 [0]
          (Element.mk true false false (ThumbState.complete ⟨1, 1⟩))
          (some ⟨1, 1⟩) :=
  ⟨(positionItem_revisions 100 16 [0]
      (Element.mk false true false (ThumbState.complete ⟨1, 1⟩))
      (some ⟨1, 1⟩)).1 ⟨1, 1⟩ rfl (by decide) (by decide) rfl rfl,
    (positionItem_revisions 100 16 [0]
      (Element.mk true false false (ThumbState.complete ⟨1, 1⟩))
      (some ⟨1, 1⟩)).2 (by decide)⟩
